import Mathlib

/-!
Shallow embedding of the LDaCA web app frontend (React/TypeScript) pieces that
the verified claims are about: the workspace graph view
(`WorkspaceGraphView.tsx`), the filter tab (`FilterTab.tsx`), the sidebar node
list (`Sidebar.tsx`), the join interface (`JoinInterface`), the token-frequency
tab (`TokenFrequencyTab`), and the tutorial view zoom controls (`TutorialView`).

JavaScript/TypeScript values that can be `undefined` are embedded as `Option`;
JavaScript truthiness of strings (`''` is falsy) and of optional values is made
explicit via the `jsTruthyStr` / `jsOrStr` helpers.
-/

set_option autoImplicit false

namespace Ldaca

/-- JavaScript truthiness of an optional string: `undefined`/`null` and the
empty string are falsy, every other string is truthy. -/
def jsTruthyStr : Option String → Bool
  | none => false
  | some s => s ≠ ""

/-- JavaScript `a || b` for an optional string `a` with default `b`:
returns `a`'s value when it is present and truthy (non-empty), else `b`. -/
def jsOrStr (a : Option String) (b : String) : String :=
  match a with
  | some s => if s = "" then b else s
  | none => b

/-- JavaScript `a || b` for optional booleans (`undefined` is falsy). -/
def jsOrBool (a : Option Bool) (b : Bool) : Bool :=
  match a with
  | some s => s || b
  | none => b

/-- Naive substring test used to embed JavaScript `String.includes`. -/
def strIncludes (s pat : String) : Bool :=
  decide (pat.data <:+: s.data)

/-- JavaScript `String.prototype.trim`: drops whitespace from both ends. -/
def jsTrim (s : String) : String :=
  String.mk (((s.data.dropWhile Char.isWhitespace).reverse.dropWhile
    Char.isWhitespace).reverse)

/-- Splitting a character list at every occurrence of `sep` (JavaScript
`String.prototype.split` with a one-character separator, on the char list). -/
def splitCharsOn (sep : Char) : List Char → List (List Char)
  | [] => [[]]
  | c :: rest =>
    match splitCharsOn sep rest with
    | [] => if c = sep then [[], []] else [[c]]
    | h :: t => if c = sep then [] :: h :: t else (c :: h) :: t

/-- JavaScript `s.split(sep)` for a one-character separator. -/
def jsSplit (s : String) (sep : Char) : List String :=
  (splitCharsOn sep s.data).map String.mk

/-! ### Backend graph data model

The backend returns a workspace graph as JSON: a list of nodes (each with an
`id`, an optional `type` tag and an optional `data` object) and a list of
edges (each with `source` and `target` ids).  Fields that the TypeScript code
reads through optional chaining (`node.data?.shape` and so on) are embedded as
`Option` fields. -/

/-- An entry of the backend `shape` tuple: a number, JSON `null` (an unresolved
row count for a lazy frame), or absent (`undefined`). -/
inductive ShapeEntry where
  | num (n : Int)
  | jnull
  | undef
  deriving DecidableEq, Repr

/-- The `data` object of a backend graph node, with the fields
`WorkspaceGraphView.tsx` reads from it. -/
structure BackendNodeData where
  shape : Option (List ShapeEntry) := none
  nodeName : Option String := none
  label : Option String := none
  nodeType : Option String := none
  dataType : Option String := none
  typeTag : Option String := none
  columns : Option (List String) := none
  schema : Option (List (String × String)) := none
  isLazy : Option Bool := none
  lazy : Option Bool := none
  deriving DecidableEq, Repr

/-- A backend graph node: `id`, optional top-level `type`, optional `data`. -/
structure BackendNode where
  id : String
  typeTag : Option String := none
  data : Option BackendNodeData := none
  deriving DecidableEq, Repr

/-- A backend derivation edge between two nodes. -/
structure BackendEdge where
  source : String
  target : String
  deriving DecidableEq, Repr

/-- The workspace graph received from the backend.  The TypeScript code guards
both `workspaceGraph.nodes` and `workspaceGraph.edges` against `undefined`, so
both are embedded as `Option` lists. -/
structure WorkspaceGraph where
  nodes : Option (List BackendNode) := none
  edges : Option (List BackendEdge) := none
  deriving DecidableEq, Repr

/-! ### React Flow rendered state

`WorkspaceGraphView` maps each backend node to a React Flow node object; the
embedding keeps the fields whose values depend on the backend node (identity,
position, and the nested `data.node` payload). -/

/-- A rendered React Flow node (the fields computed from backend data in the
`initialNodes` transformation of `WorkspaceGraphView.tsx`). -/
structure RFNode where
  id : String
  posX : Int
  posY : Int
  name : String
  shape : List ShapeEntry
  columns : List String
  isTextData : Bool
  dataType : String
  columnSchema : List (String × String)
  isLazy : Bool
  deriving DecidableEq, Repr

/-- A rendered React Flow edge. -/
structure RFEdge where
  source : String
  target : String
  deriving DecidableEq, Repr

/-- The React Flow state held by the `useNodesState` / `useEdgesState` hooks. -/
structure RFState where
  nodes : List RFNode
  edges : List RFEdge
  deriving DecidableEq, Repr

/-- Shape extraction from `WorkspaceGraphView.tsx`: when the backend value is a
2-element array, each entry is kept unless it is `undefined`, which becomes
`0` (the code comment says null values for LazyFrames are preserved);
otherwise the shape defaults to `[0, 0]`. -/
def extractShape (backendShape : Option (List ShapeEntry)) : List ShapeEntry :=
  match backendShape with
  | some [a, b] =>
    [if a = ShapeEntry.undef then ShapeEntry.num 0 else a,
     if b = ShapeEntry.undef then ShapeEntry.num 0 else b]
  | _ => [ShapeEntry.num 0, ShapeEntry.num 0]

/-- The per-node transformation of the `initialNodes` memo in
`WorkspaceGraphView.tsx`: builds the React Flow node for backend node `node`
at index `index`. -/
def transformNode (index : Nat) (node : BackendNode) : RFNode :=
  let d := node.data
  { id := node.id
    posX := (index : Int) * 320
    posY := 50
    name := jsOrStr (d.bind (·.nodeName))
      (jsOrStr (d.bind (·.label)) ("Node " ++ toString (index + 1)))
    shape := extractShape (d.bind (·.shape))
    columns := (d.bind (·.columns)).getD []
    isTextData := (match d.bind (·.dataType) with
      | some t => strIncludes t "Doc"
      | none => false)
    dataType := jsOrStr (d.bind (·.nodeType))
      (jsOrStr (d.bind (·.dataType))
        (jsOrStr (d.bind (·.typeTag)) (jsOrStr node.typeTag "unknown")))
    columnSchema := (d.bind (·.schema)).getD []
    isLazy := jsOrBool (d.bind (·.isLazy)) (jsOrBool (d.bind (·.lazy)) false) }

/-- The `initialNodes` memo: transforms the backend node list (empty when the
graph or its node list is absent). -/
def initialNodes (g : Option WorkspaceGraph) : List RFNode :=
  match g with
  | none => []
  | some g =>
    match g.nodes with
    | none => []
    | some ns => (ns.enum.map fun p => transformNode p.1 p.2)

/-- Comma-joined id signature of the currently rendered React Flow nodes
(`nodes.map(n => n.id).join(',')`). -/
def renderedNodeSig (ns : List RFNode) : String :=
  String.intercalate "," (ns.map (·.id))

/-- Comma-joined source-target signature of the currently rendered React Flow
edges. -/
def renderedEdgeSig (es : List RFEdge) : String :=
  String.intercalate "," (es.map fun e => e.source ++ "-" ++ e.target)

/-- Comma-joined id signature of the backend node list
(`workspaceGraph?.nodes?.map(n => n.id).join(',') || ''`). -/
def backendNodeSig (g : Option WorkspaceGraph) : String :=
  match g with
  | none => ""
  | some g =>
    match g.nodes with
    | none => ""
    | some ns => String.intercalate "," (ns.map (·.id))

/-- Comma-joined source-target signature of the backend edge list. -/
def backendEdgeSig (g : Option WorkspaceGraph) : String :=
  match g with
  | none => ""
  | some g =>
    match g.edges with
    | none => ""
    | some es => String.intercalate "," (es.map fun e => e.source ++ "-" ++ e.target)

/-- The synchronization effect of `WorkspaceGraphView.tsx`: when both derived
string signatures match the rendered state nothing is updated; otherwise the
rendered nodes are replaced by the transformed backend nodes and the edge list
is forced to the empty array (the code disables edge rendering). -/
def syncEffect (g : Option WorkspaceGraph) (st : RFState) : RFState :=
  if backendNodeSig g = renderedNodeSig st.nodes ∧
      backendEdgeSig g = renderedEdgeSig st.edges then
    st
  else
    { nodes := initialNodes g, edges := [] }

/-- The safeguard effect of `WorkspaceGraphView.tsx`: whenever the rendered
edge list is non-empty it is cleared. -/
def safeguardEffect (st : RFState) : RFState :=
  if st.edges.length > 0 then { st with edges := [] } else st

/-! ### Node deletion deduplication (`handleDelete` / `pendingDeletes`) -/

/-- One `handleDelete(nodeId)` call: when a `deleteNode` callback is available
and the id is not already pending, the id is added to the pending set and a
delete request is issued (`true`); otherwise nothing happens (`false`).
Returns the new pending set and whether a request was issued. -/
def handleDelete (deleteNodeAvailable : Bool) (pending : List String)
    (nodeId : String) : List String × Bool :=
  if deleteNodeAvailable ∧ ¬ pending.contains nodeId then
    (nodeId :: pending, true)
  else
    (pending, false)

/-- The `.finally` continuation of a delete request for `nodeId`: the id is
removed from the pending set when the request settles. -/
def settleDelete (pending : List String) (nodeId : String) : List String :=
  pending.filter (· ≠ nodeId)

/-! ### Node click selection (`onNodeClick`) -/

/-- The selection call a node click is mapped to. -/
inductive SelectionAction where
  | toggle (id : String)
  | select (id : String)
  | noAction
  deriving DecidableEq, Repr

/-- The `onNodeClick` handler of `WorkspaceGraphView.tsx`: for a node with a
truthy id, a Cmd/Meta- or Ctrl-click maps to `toggleNodeSelection(node.id)`
and a plain click maps to `selectNode(node.id)`; otherwise no call is made. -/
def onNodeClick (metaKey ctrlKey : Bool) (node : Option String) : SelectionAction :=
  match node with
  | none => SelectionAction.noAction
  | some id =>
    if id ≠ "" then
      if metaKey || ctrlKey then SelectionAction.toggle id
      else SelectionAction.select id
    else
      SelectionAction.noAction

/-! ### Filter tab (`FilterTab.tsx`) -/

/-- A filter condition value as held in the UI state: string, number, boolean,
a committed ISO datetime, a datetime range, or `null`. -/
inductive FilterValue where
  | str (s : String)
  | num (n : Int)
  | boolVal (b : Bool)
  | date (iso : String)
  | range (start stop : Option String)
  | jnull
  deriving DecidableEq, Repr

/-- JavaScript truthiness of a filter value (`''`, `0`, `false` and `null` are
falsy; object values such as ranges are truthy). -/
def filterValueTruthy : FilterValue → Bool
  | FilterValue.str s => s ≠ ""
  | FilterValue.num n => n ≠ 0
  | FilterValue.boolVal b => b
  | FilterValue.date _ => true
  | FilterValue.range _ _ => true
  | FilterValue.jnull => false

/-- A filter condition row of the filter form (`FilterConditionWithId`). -/
structure FilterConditionWithId where
  condId : String
  column : String
  operator : String
  value : FilterValue
  dataType : Option String := none
  negate : Option Bool := none
  regex : Option Bool := none
  deriving DecidableEq, Repr

/-- A serialized filter condition value as sent to the API. -/
inductive SerialValue where
  | jnull
  | str (s : String)
  | num (n : Int)
  | boolVal (b : Bool)
  | range (start stop : Option String)
  deriving DecidableEq, Repr

/-- Serialization of one condition value in `handleApplyFilter`: `is_null`
conditions send `null`, datetime values send their ISO string, ranges keep
their string endpoints, and plain values pass through. -/
def serializeValue (operator : String) (v : FilterValue) : SerialValue :=
  if operator = "is_null" then SerialValue.jnull
  else match v with
    | FilterValue.date iso => SerialValue.str iso
    | FilterValue.range s e => SerialValue.range s e
    | FilterValue.str s => SerialValue.str s
    | FilterValue.num n => SerialValue.num n
    | FilterValue.boolVal b => SerialValue.boolVal b
    | FilterValue.jnull => SerialValue.jnull

/-- A serialized condition payload (`{ column, operator, value, negate?, regex? }`). -/
structure SerialCondition where
  column : String
  operator : String
  value : SerialValue
  negate : Option Bool := none
  regex : Option Bool := none
  deriving DecidableEq, Repr

/-- Serialization of one condition row. -/
def serializeCondition (c : FilterConditionWithId) : SerialCondition :=
  { column := c.column
    operator := c.operator
    value := serializeValue c.operator c.value
    negate := c.negate.map id
    regex := c.regex.map id }

/-- The filter request body built by `handleApplyFilter`. -/
structure FilterRequest where
  conditions : List SerialCondition
  logic : String
  new_node_name : Option String
  deriving DecidableEq, Repr

/-- Outcome of invoking the filter form submit action. -/
inductive FilterSubmit where
  | alertSelectNode
  | alertFillConditions
  | request (r : FilterRequest)
  deriving DecidableEq, Repr

/-- The `handleApplyFilter` handler of `FilterTab.tsx`: without a selected
node it alerts; when some condition has an empty column, or a non-`is_null`
condition has a falsy value, it alerts and returns early; otherwise it builds
and issues the filter request. -/
def handleApplyFilter (selectedNodeId : Option String)
    (conditions : List FilterConditionWithId) (logic : String)
    (newNodeName : String) : FilterSubmit :=
  if ¬ jsTruthyStr selectedNodeId then FilterSubmit.alertSelectNode
  else if conditions.any
      (fun c => c.column = "" ∨ (c.operator ≠ "is_null" ∧ ¬ filterValueTruthy c.value)) then
    FilterSubmit.alertFillConditions
  else
    FilterSubmit.request
      { conditions := conditions.map serializeCondition
        logic := logic
        new_node_name := if newNodeName = "" then none else some newNodeName }

/-- The `disabled` expression of the Apply Filter button in `FilterTab.tsx`:
`isFiltering || isLoading.operations`. -/
def applyFilterDisabled (isFiltering loadingOperations : Bool) : Bool :=
  isFiltering || loadingOperations

/-! ### Join interface (`JoinInterface`) -/

/-- The join form fields together with the local loading flag. -/
structure JoinForm where
  leftOn : String
  rightOn : String
  how : String
  newNodeName : String
  isLoading : Bool
  deriving DecidableEq, Repr

/-- Whether the join request promise resolves or rejects. -/
inductive JoinOutcome where
  | resolve
  | reject
  deriving DecidableEq, Repr

/-- Result of a `handleJoin` invocation: the final form state, whether an
alert dialog was shown, whether a join request was issued, and the node name
sent with the request (when issued). -/
structure JoinRunResult where
  form : JoinForm
  alertShown : Bool
  requestIssued : Bool
  requestName : Option String
  deriving DecidableEq, Repr

/-- The `handleJoin` handler of `JoinInterface`: empty join columns alert and
return without a request; otherwise a request is issued with the trimmed name
(or a generated default), the fields reset to their defaults on resolve and
keep their values behind an alert on reject, and the loading flag ends false
in both cases (the `finally` block). -/
def handleJoin (leftName rightName : String) (st : JoinForm)
    (outcome : JoinOutcome) : JoinRunResult :=
  if st.leftOn = "" ∨ st.rightOn = "" then
    { form := st, alertShown := true, requestIssued := false, requestName := none }
  else
    let finalNodeName :=
      if jsTrim st.newNodeName = "" then
        leftName ++ "_" ++ st.how ++ "_join_" ++ rightName
      else jsTrim st.newNodeName
    match outcome with
    | JoinOutcome.resolve =>
      { form := { leftOn := "", rightOn := "", how := "left", newNodeName := "",
                  isLoading := false }
        alertShown := false, requestIssued := true, requestName := some finalNodeName }
    | JoinOutcome.reject =>
      { form := { st with isLoading := false }
        alertShown := true, requestIssued := true, requestName := some finalNodeName }

/-! ### Sidebar node list (`Sidebar.tsx`) -/

/-- The `checked` expression of a sidebar node checkbox:
`(selectedNodeIds || []).includes(n.id)`. -/
def sidebarChecked (selectedNodeIds : Option (List String)) (nodeId : String) : Bool :=
  (selectedNodeIds.getD []).contains nodeId

/-- The sidebar node list render: one `(node id, checked)` entry per workspace
graph node, in graph order. -/
def sidebarCheckboxes (g : Option WorkspaceGraph)
    (selectedNodeIds : Option (List String)) : List (String × Bool) :=
  ((g.bind (·.nodes)).getD []).map fun n => (n.id, sidebarChecked selectedNodeIds n.id)

/-! ### Token frequency tab (`TokenFrequencyTab`) -/

/-- A selected node as seen by the token frequency tab (only its id matters
for the request). -/
structure SelNode where
  id : String
  deriving DecidableEq, Repr

/-- The token frequency request body. -/
structure TokenFrequencyRequest where
  node_ids : List String
  node_columns : List (String × String)
  stop_words : Option (List String)
  limit : Int
  deriving DecidableEq, Repr

/-- Stop-word parsing in `handleAnalyze`: an all-whitespace field sends
`undefined`, else the comma-split, trimmed, non-empty words. -/
def parseStopWords (stopWords : String) : Option (List String) :=
  if jsTrim stopWords = "" then none
  else some (((jsSplit stopWords ',').map jsTrim).filter (· ≠ ""))

/-- Outcome of invoking `handleAnalyze`. -/
inductive AnalyzeResult where
  | noop
  | alertSelectColumn
  | request (r : TokenFrequencyRequest)
  deriving DecidableEq, Repr

/-- The `handleAnalyze` handler of `TokenFrequencyTab`: no workspace or empty
selection is a no-op; an incomplete column selection alerts; otherwise the
request is issued with the node ids limited to the first two selected nodes
(`selectedNodes.slice(0, 2).map(node => node.id)`). -/
def handleAnalyze (currentWorkspaceId : Option String)
    (selectedNodes : List SelNode) (nodeColumnSelections : List (String × String))
    (stopWords : String) (limit : Int) : AnalyzeResult :=
  if ¬ jsTruthyStr currentWorkspaceId ∨ selectedNodes.length = 0 then
    AnalyzeResult.noop
  else if (nodeColumnSelections.filter (fun sel => sel.2 = "")).length > 0 then
    AnalyzeResult.alertSelectColumn
  else
    AnalyzeResult.request
      { node_ids := (selectedNodes.take 2).map (·.id)
        node_columns := nodeColumnSelections
        stop_words := parseStopWords stopWords
        limit := limit }

/-! ### Tutorial view zoom (`TutorialView`)

The zoom state is a number, initially `1`; `zoomIn`/`zoomOut` add or subtract
`0.1`, round to two decimals (`toFixed(2)` then `parseFloat`) and clamp into
`[0.5, 2]`; `zoomReset` sets it back to `1`.  The arithmetic is embedded over
the rationals. -/

/-- The `clamp` helper of `TutorialView`: `Math.min(2, Math.max(0.5, v))`. -/
def clampZoom (v : ℚ) : ℚ :=
  min 2 (max (1/2) v)

/-- Rounding to two decimal places (`parseFloat(x.toFixed(2))`). -/
def round2 (v : ℚ) : ℚ :=
  (round (v * 100) : ℚ) / 100

/-- A zoom operation of the tutorial view. -/
inductive ZoomOp where
  | zoomIn
  | zoomOut
  | zoomReset
  deriving DecidableEq, Repr

/-- One zoom operation applied to the current zoom value. -/
def applyZoom (z : ℚ) : ZoomOp → ℚ
  | ZoomOp.zoomIn => clampZoom (round2 (z + 1/10))
  | ZoomOp.zoomOut => clampZoom (round2 (z - 1/10))
  | ZoomOp.zoomReset => 1

/-- The zoom value after a sequence of operations, starting from the initial
zoom of `1`. -/
def runZoom (ops : List ZoomOp) : ℚ :=
  ops.foldl applyZoom 1

/-! ## Theorems -/

/-- Every clamped value lies in `[1/2, 2]`. -/
lemma clampZoom_bounds (v : ℚ) : 1/2 ≤ clampZoom v ∧ clampZoom v ≤ 2 := by
  unfold clampZoom
  constructor
  · exact le_min (by norm_num) (le_max_left _ _)
  · exact min_le_left _ _

/-- Every zoom operation produces a value in `[1/2, 2]`, whatever the input. -/
lemma applyZoom_bounds (z : ℚ) (op : ZoomOp) :
    1/2 ≤ applyZoom z op ∧ applyZoom z op ≤ 2 := by
  cases op with
  | zoomIn => exact clampZoom_bounds _
  | zoomOut => exact clampZoom_bounds _
  | zoomReset => exact ⟨by norm_num [applyZoom], by norm_num [applyZoom]⟩

/-- Folding zoom operations from a value in `[1/2, 2]` stays in `[1/2, 2]`. -/
lemma foldl_applyZoom_bounds (ops : List ZoomOp) (z : ℚ)
    (h1 : 1/2 ≤ z) (h2 : z ≤ 2) :
    1/2 ≤ ops.foldl applyZoom z ∧ ops.foldl applyZoom z ≤ 2 := by
  induction ops generalizing z with
  | nil => exact ⟨h1, h2⟩
  | cons op ops ih =>
    simp only [List.foldl_cons]
    exact ih (applyZoom z op) (applyZoom_bounds z op).1 (applyZoom_bounds z op).2

/-- C10: the tutorial view zoom level is always within `[0.5, 2]`: starting
from the initial zoom of `1`, after any finite sequence of `zoomIn`,
`zoomOut` and `zoomReset` operations, `0.5 ≤ zoom ≤ 2`. -/
theorem c10_zoom_invariant (ops : List ZoomOp) :
    1/2 ≤ runZoom ops ∧ runZoom ops ≤ 2 :=
  foldl_applyZoom_bounds ops 1 (by norm_num) (by norm_num)

/-- C1 (counterexample): a workspace graph with two backend nodes and one
backend edge is rendered, after the synchronization effect runs on the
initial empty React Flow state, with an empty edge list — the backend edge is
not passed to the renderer. -/
theorem c1_counterexample :
    (WorkspaceGraph.edges
        { nodes := some [{ id := "a" }, { id := "b" }],
          edges := some [{ source := "a", target := "b" }] }).getD [] ≠ [] ∧
    (syncEffect
        (some { nodes := some [{ id := "a" }, { id := "b" }],
                edges := some [{ source := "a", target := "b" }] })
        { nodes := [], edges := [] }).edges = [] := by
  constructor
  · decide
  · decide

/-- C1 (amended): the graph view never renders backend edges: after the
synchronization effect and the safeguard effect run, the edge list passed to
the React Flow renderer is empty for every workspace graph and every prior
rendered state. -/
theorem c1_amended_edges_always_empty (g : Option WorkspaceGraph) (st : RFState) :
    (safeguardEffect (syncEffect g st)).edges = [] := by
  unfold safeguardEffect
  split
  · rfl
  · next h => exact List.eq_nil_of_length_eq_zero (by omega)

/-- C2 (counterexample): a filter form state whose single condition has an
empty column, while no filter is applying and no workspace operation is
loading, leaves the Apply button enabled (`disabled` is `false`). -/
theorem c2_counterexample :
    ([({ condId := "1", column := "", operator := "eq",
         value := FilterValue.str "", negate := some false,
         regex := some true } : FilterConditionWithId)].any
      (fun c => c.column = "")) = true ∧
    applyFilterDisabled false false = false := by
  constructor
  · decide
  · rfl

/-- C2 (amended): an empty column does not disable the Apply button (it is
disabled only by the filtering/loading flags), but it does make the submit
action return early with an alert: no filter request is issued from any form
state in which some condition has an empty column. -/
theorem c2_amended_empty_column_blocks_request (selectedNodeId : Option String)
    (conditions : List FilterConditionWithId) (logic newNodeName : String)
    (h : conditions.any (fun c => c.column = "") = true) :
    applyFilterDisabled false false = false ∧
    ∀ r : FilterRequest,
      handleApplyFilter selectedNodeId conditions logic newNodeName ≠
        FilterSubmit.request r := by
  refine ⟨rfl, ?_⟩
  intro r hreq
  unfold handleApplyFilter at hreq
  split at hreq
  · simp at hreq
  · split at hreq
    · simp at hreq
    · next hcond =>
      rw [List.any_eq_true] at h
      obtain ⟨c, hc, hcol⟩ := h
      apply hcond
      rw [List.any_eq_true]
      refine ⟨c, hc, ?_⟩
      simp only [decide_eq_true_eq] at hcol ⊢
      exact Or.inl hcol

/-- C2 witness: the amended theorem at a one-condition form whose column is
empty. -/
theorem c2_amended_empty_column_blocks_request_witness :
    applyFilterDisabled false false = false ∧
    ∀ r : FilterRequest,
      handleApplyFilter (some "node1")
        [{ condId := "1", column := "", operator := "eq",
           value := FilterValue.str "", negate := some false,
           regex := some true }] "and" "" ≠ FilterSubmit.request r :=
  c2_amended_empty_column_blocks_request (some "node1")
    [{ condId := "1", column := "", operator := "eq",
       value := FilterValue.str "", negate := some false,
       regex := some true }] "and" "" (by decide)

/-- C3: graph re-rendering is gated on the derived string signatures: when the
backend node-id signature and the backend edge signature both equal those of
the rendered React Flow state, the synchronization effect leaves the state
unchanged; when either differs, the rendered nodes are replaced by the
transformed backend node list. -/
theorem c3_signature_gating (g : Option WorkspaceGraph) (st : RFState) :
    (backendNodeSig g = renderedNodeSig st.nodes →
      backendEdgeSig g = renderedEdgeSig st.edges →
      syncEffect g st = st) ∧
    (¬ (backendNodeSig g = renderedNodeSig st.nodes ∧
        backendEdgeSig g = renderedEdgeSig st.edges) →
      (syncEffect g st).nodes = initialNodes g) := by
  constructor
  · intro h1 h2
    unfold syncEffect
    simp [h1, h2]
  · intro h
    unfold syncEffect
    simp [h]

/-- C3 witness: the gating theorem applied at a concrete graph and rendered
state whose signatures differ. -/
theorem c3_signature_gating_witness :
    (backendNodeSig (some { nodes := some [{ id := "a" }], edges := some [] }) =
        renderedNodeSig (RFState.mk [] []).nodes →
      backendEdgeSig (some { nodes := some [{ id := "a" }], edges := some [] }) =
        renderedEdgeSig (RFState.mk [] []).edges →
      syncEffect (some { nodes := some [{ id := "a" }], edges := some [] })
        (RFState.mk [] []) = RFState.mk [] []) ∧
    (¬ (backendNodeSig (some { nodes := some [{ id := "a" }], edges := some [] }) =
          renderedNodeSig (RFState.mk [] []).nodes ∧
        backendEdgeSig (some { nodes := some [{ id := "a" }], edges := some [] }) =
          renderedEdgeSig (RFState.mk [] []).edges) →
      (syncEffect (some { nodes := some [{ id := "a" }], edges := some [] })
          (RFState.mk [] [])).nodes =
        initialNodes (some { nodes := some [{ id := "a" }], edges := some [] })) :=
  c3_signature_gating
    (some { nodes := some [{ id := "a" }], edges := some [] })
    (RFState.mk [] [])

/-- C4: for a join submission whose request is actually issued (both join
columns non-empty): on rejection an alert is shown and the four form fields
keep their pre-submission values; on resolution the fields reset to
`('', '', 'left', '')` and no alert is shown; in both cases the loading flag
ends `false`. -/
theorem c4_join_error_handling (leftName rightName : String) (st : JoinForm)
    (h1 : st.leftOn ≠ "") (h2 : st.rightOn ≠ "") :
    (handleJoin leftName rightName st JoinOutcome.reject).alertShown = true ∧
    (handleJoin leftName rightName st JoinOutcome.reject).form.leftOn = st.leftOn ∧
    (handleJoin leftName rightName st JoinOutcome.reject).form.rightOn = st.rightOn ∧
    (handleJoin leftName rightName st JoinOutcome.reject).form.how = st.how ∧
    (handleJoin leftName rightName st JoinOutcome.reject).form.newNodeName =
      st.newNodeName ∧
    (handleJoin leftName rightName st JoinOutcome.reject).form.isLoading = false ∧
    (handleJoin leftName rightName st JoinOutcome.resolve).alertShown = false ∧
    (handleJoin leftName rightName st JoinOutcome.resolve).form =
      { leftOn := "", rightOn := "", how := "left", newNodeName := "",
        isLoading := false } := by
  unfold handleJoin
  simp [h1, h2]

/-- C4 witness: the join error-handling theorem at a concrete form state. -/
theorem c4_join_error_handling_witness :
    (handleJoin "l" "r" (JoinForm.mk "x" "y" "inner" "n" true)
        JoinOutcome.reject).alertShown = true ∧
    (handleJoin "l" "r" (JoinForm.mk "x" "y" "inner" "n" true)
        JoinOutcome.reject).form.leftOn = (JoinForm.mk "x" "y" "inner" "n" true).leftOn ∧
    (handleJoin "l" "r" (JoinForm.mk "x" "y" "inner" "n" true)
        JoinOutcome.reject).form.rightOn = (JoinForm.mk "x" "y" "inner" "n" true).rightOn ∧
    (handleJoin "l" "r" (JoinForm.mk "x" "y" "inner" "n" true)
        JoinOutcome.reject).form.how = (JoinForm.mk "x" "y" "inner" "n" true).how ∧
    (handleJoin "l" "r" (JoinForm.mk "x" "y" "inner" "n" true)
        JoinOutcome.reject).form.newNodeName =
      (JoinForm.mk "x" "y" "inner" "n" true).newNodeName ∧
    (handleJoin "l" "r" (JoinForm.mk "x" "y" "inner" "n" true)
        JoinOutcome.reject).form.isLoading = false ∧
    (handleJoin "l" "r" (JoinForm.mk "x" "y" "inner" "n" true)
        JoinOutcome.resolve).alertShown = false ∧
    (handleJoin "l" "r" (JoinForm.mk "x" "y" "inner" "n" true)
        JoinOutcome.resolve).form =
      { leftOn := "", rightOn := "", how := "left", newNodeName := "",
        isLoading := false } :=
  c4_join_error_handling "l" "r" (JoinForm.mk "x" "y" "inner" "n" true)
    (by decide) (by decide)

/-- C5: a click on a graph node with a truthy id is mapped to exactly one
selection call: `toggleNodeSelection` when Cmd/Meta or Ctrl is held,
`selectNode` otherwise; the click never bypasses selection handling. -/
theorem c5_node_click_selection (metaKey ctrlKey : Bool) (id : String)
    (h : id ≠ "") :
    onNodeClick metaKey ctrlKey (some id) =
      (if metaKey || ctrlKey then SelectionAction.toggle id
       else SelectionAction.select id) ∧
    onNodeClick metaKey ctrlKey (some id) ≠ SelectionAction.noAction := by
  have hstep : onNodeClick metaKey ctrlKey (some id) =
      if metaKey || ctrlKey then SelectionAction.toggle id
      else SelectionAction.select id := by
    show (if id ≠ "" then
        if metaKey || ctrlKey then SelectionAction.toggle id
        else SelectionAction.select id
      else SelectionAction.noAction) =
      if metaKey || ctrlKey then SelectionAction.toggle id
      else SelectionAction.select id
    rw [if_pos h]
  rw [hstep]
  refine ⟨rfl, ?_⟩
  split <;> simp

/-- C5 witness: the node click theorem at a concrete Ctrl-click. -/
theorem c5_node_click_selection_witness :
    onNodeClick false true (some "n1") =
      (if false || true then SelectionAction.toggle "n1"
       else SelectionAction.select "n1") ∧
    onNodeClick false true (some "n1") ≠ SelectionAction.noAction :=
  c5_node_click_selection false true "n1" (by decide)

/-- C6: the sidebar node list stays synchronized with graph selection: every
rendered checkbox entry is checked if and only if its node id is a member of
`selectedNodeIds`. -/
theorem c6_sidebar_checkbox_sync (g : Option WorkspaceGraph)
    (selectedNodeIds : Option (List String)) (entry : String × Bool)
    (h : entry ∈ sidebarCheckboxes g selectedNodeIds) :
    entry.2 = true ↔ entry.1 ∈ selectedNodeIds.getD [] := by
  unfold sidebarCheckboxes at h
  rw [List.mem_map] at h
  obtain ⟨n, _, rfl⟩ := h
  simp [sidebarChecked]

/-- C6 witness: the sidebar synchronization theorem at a one-node graph whose
node is selected. -/
theorem c6_sidebar_checkbox_sync_witness :
    (("a", true) : String × Bool).2 = true ↔
      (("a", true) : String × Bool).1 ∈ (some ["a"] : Option (List String)).getD [] :=
  c6_sidebar_checkbox_sync
    (some { nodes := some [{ id := "a" }], edges := none })
    (some ["a"]) ("a", true) (by decide)

/-- C7: in the graph view node transformation, for a backend node whose shape
field is a 2-element array, a `null` (unresolved) row count is preserved as
`null` in the mapped node, while an `undefined` entry is mapped to `0`. -/
theorem c7_lazy_shape_null_preserved (index : Nat) (node : BackendNode)
    (d : BackendNodeData) (b : ShapeEntry) (hd : node.data = some d) :
    (d.shape = some [ShapeEntry.jnull, b] →
      (transformNode index node).shape.head? = some ShapeEntry.jnull) ∧
    (d.shape = some [ShapeEntry.undef, b] →
      (transformNode index node).shape.head? = some (ShapeEntry.num 0)) := by
  constructor <;> intro hs <;> simp [transformNode, extractShape, hd, hs]

/-- C7 witness: the shape preservation theorem at a concrete lazy node whose
backend shape is `[null, 3]`. -/
theorem c7_lazy_shape_null_preserved_witness :
    (({ shape := some [ShapeEntry.jnull, ShapeEntry.num 3] } :
        BackendNodeData).shape = some [ShapeEntry.jnull, ShapeEntry.num 3] →
      (transformNode 0
        { id := "n",
          data := some { shape := some [ShapeEntry.jnull, ShapeEntry.num 3] } }).shape.head? =
        some ShapeEntry.jnull) ∧
    (({ shape := some [ShapeEntry.jnull, ShapeEntry.num 3] } :
        BackendNodeData).shape = some [ShapeEntry.undef, ShapeEntry.num 3] →
      (transformNode 0
        { id := "n",
          data := some { shape := some [ShapeEntry.jnull, ShapeEntry.num 3] } }).shape.head? =
        some (ShapeEntry.num 0)) :=
  c7_lazy_shape_null_preserved 0
    { id := "n", data := some { shape := some [ShapeEntry.jnull, ShapeEntry.num 3] } }
    { shape := some [ShapeEntry.jnull, ShapeEntry.num 3] }
    (ShapeEntry.num 3) rfl

/-- C8: whenever `handleAnalyze` issues a token-frequency request, the request
contains exactly the ids of the first two selected nodes in selection order —
in particular at most two node ids, however many nodes are selected. -/
theorem c8_request_at_most_two_ids (currentWorkspaceId : Option String)
    (selectedNodes : List SelNode) (nodeColumnSelections : List (String × String))
    (stopWords : String) (limit : Int) (r : TokenFrequencyRequest)
    (h : handleAnalyze currentWorkspaceId selectedNodes nodeColumnSelections
      stopWords limit = AnalyzeResult.request r) :
    r.node_ids = (selectedNodes.take 2).map (·.id) ∧ r.node_ids.length ≤ 2 := by
  unfold handleAnalyze at h
  split at h
  · simp at h
  · split at h
    · simp at h
    · injection h with h
      rw [← h]
      refine ⟨rfl, ?_⟩
      simp only [List.length_map, List.length_take]
      exact min_le_left _ _

/-- C8 witness: the theorem applied to a three-node selection, whose request
carries only the first two node ids. -/
theorem c8_request_at_most_two_ids_witness :
    ({ node_ids := ["a", "b"], node_columns := [("a", "text")],
       stop_words := none, limit := 20 } : TokenFrequencyRequest).node_ids =
      (([⟨"a"⟩, ⟨"b"⟩, ⟨"c"⟩] : List SelNode).take 2).map (·.id) ∧
    ({ node_ids := ["a", "b"], node_columns := [("a", "text")],
       stop_words := none, limit := 20 } : TokenFrequencyRequest).node_ids.length ≤ 2 :=
  c8_request_at_most_two_ids (some "w") [⟨"a"⟩, ⟨"b"⟩, ⟨"c"⟩] [("a", "text")] "" 20
    _ (by decide)

/-- C9: node deletion requests are deduplicated per id: while an id is in the
pending set, `handleDelete` issues no second request and leaves the set
unchanged; settling removes the id from the set, after which a new delete for
that id is issued again. -/
theorem c9_delete_deduplication (pending : List String) (nodeId : String)
    (avail : Bool) :
    (pending.contains nodeId = true →
      handleDelete avail pending nodeId = (pending, false)) ∧
    (settleDelete pending nodeId).contains nodeId = false ∧
    handleDelete true (settleDelete pending nodeId) nodeId =
      (nodeId :: settleDelete pending nodeId, true) := by
  refine ⟨?_, ?_, ?_⟩
  · intro hp
    unfold handleDelete
    rw [if_neg]
    intro hcond
    exact hcond.2 hp
  · simp [settleDelete]
  · unfold handleDelete
    rw [if_pos]
    refine ⟨rfl, ?_⟩
    simp [settleDelete]

/-- C9 witness: the deduplication theorem with node id `a` pending. -/
theorem c9_delete_deduplication_witness :
    ((["a"] : List String).contains "a" = true →
      handleDelete false ["a"] "a" = (["a"], false)) ∧
    (settleDelete ["a"] "a").contains "a" = false ∧
    handleDelete true (settleDelete ["a"] "a") "a" =
      ("a" :: settleDelete ["a"] "a", true) :=
  c9_delete_deduplication ["a"] "a" false

end Ldaca
